import Mathlib

/-!
Verification development for the `linkt` terminal bookmark manager
(single source file `linkt.py`).  The Python program is shallowly
embedded: pure fragments become Lean functions, file-system state is
passed explicitly, and Python exceptions are modelled with `Except`.
All machine integers in the program are unbounded Python ints, so
`Nat`/`Int` are used directly.
-/

/-! ## String helpers mirroring Python primitives -/

/-- Python whitespace class used by `str.strip` and the regex `\s`
(ASCII subset; the program only manipulates such characters in the
properties under study). -/
def isPySpace (c : Char) : Bool :=
  c = ' ' || c = '\t' || c = '\n' || c = '\r' || c = Char.ofNat 11 || c = Char.ofNat 12

/-- Python `str.strip()` on the character-list representation. -/
def pyStripList (l : List Char) : List Char :=
  ((l.dropWhile isPySpace).reverse.dropWhile isPySpace).reverse

/-- Python `str.strip()`. -/
def pyStrip (s : String) : String := String.mk (pyStripList s.data)

/-- Python `str.rstrip()`. -/
def pyRstrip (s : String) : String :=
  String.mk ((s.data.reverse.dropWhile isPySpace).reverse)

/-- Python slicing `s[:n]` (by code points). -/
def pyTakeStr (n : Nat) (s : String) : String := String.mk (s.data.take n)

/-- Does `pat` occur at the start of `l`? -/
def leadsWith : List Char → List Char → Bool
  | [], _ => true
  | _ :: _, [] => false
  | a :: as, b :: bs => a = b && leadsWith as bs

/-- Does `pat` occur contiguously anywhere in the list? -/
def occursIn (pat : List Char) : List Char → Bool
  | [] => leadsWith pat []
  | c :: rest => leadsWith pat (c :: rest) || occursIn pat rest

/-- Python `needle in hay` on strings (substring test). -/
def strContains (hay needle : String) : Bool := occursIn needle.data hay.data

/-- Python `str.lower()` (ASCII case folding, which covers the
program's use). -/
def strLower (s : String) : String := String.mk (s.data.map Char.toLower)

/-- Python `sep.join(items)`. -/
def joinWith (sep : String) : List String → String
  | [] => ""
  | [s] => s
  | s :: rest => s ++ sep ++ joinWith sep rest

/-- Python `str.split(sep)` for a one-character separator, on the
character-list representation (`"".split(c) = [""]`, like Python). -/
def splitOnChar (sep : Char) : List Char → List (List Char)
  | [] => [[]]
  | c :: rest =>
    if c = sep then [] :: splitOnChar sep rest
    else
      match splitOnChar sep rest with
      | [] => [[c]]
      | h :: t => (c :: h) :: t

/-- Python `str.isprintable()` approximated on the ASCII range (true
for the empty string, as in Python). -/
def pyIsPrintable (s : String) : Bool :=
  s.data.all (fun c => 32 ≤ c.toNat && c.toNat ≠ 127)

/-! ## JSON documents and the persisted store file

`load_bookmarks` hands back the raw parsed JSON value, so the on-disk
container is modelled at the JSON level. -/

/-- JSON values as Python's `json` module produces them (numbers
restricted to ints, which is all the program ever writes). -/
inductive Json where
  | null : Json
  | bool (b : Bool) : Json
  | num (n : Int) : Json
  | str (s : String) : Json
  | arr (xs : List Json) : Json
  | obj (kvs : List (String × Json)) : Json

/-- The possible states of the bookmarks file as `load_bookmarks`
distinguishes them: absent, undecodable (raises `json.JSONDecodeError`
or `UnicodeDecodeError`), or decodable to a JSON value. -/
inductive FileContent where
  | missing : FileContent
  | corrupt : FileContent
  | jsonFile (d : Json) : FileContent

/-- Python exceptions that can escape the embedded fragments. -/
inductive PyError where
  | typeError : PyError
deriving DecidableEq

/-- Outcome of `load_bookmarks`: the returned value (or escaped
exception) plus whether the corruption warning was printed. -/
structure LoadResult where
  result : Except PyError Json
  warned : Bool

/-- The literal default container `{"bookmarks": [], "next_id": 1}`. -/
def defaultContainer : Json := .obj [("bookmarks", .arr []), ("next_id", .num 1)]

/-- Python `key in data` for a JSON value: key membership for dicts,
element membership for lists, substring test for strings, `TypeError`
otherwise. -/
def pyContains : Json → String → Except PyError Bool
  | .obj kvs, k => .ok (kvs.any (fun p => p.1 == k))
  | .arr xs, k => .ok (xs.any (fun j => match j with | .str s => s == k | _ => false))
  | .str s, k => .ok (strContains s k)
  | _, _ => .error .typeError

/-- Python dict assignment semantics: replace in place if the key
exists, else append; preserves insertion order. -/
def objSet : List (String × Json) → String → Json → List (String × Json)
  | [], k, v => [(k, v)]
  | (k', v') :: rest, k, v =>
    if k' == k then (k, v) :: rest else (k', v') :: objSet rest k v

/-- Python `data[k] = v`: only dicts accept item assignment; every
other parsed value raises `TypeError`. -/
def pySetItem : Json → String → Json → Except PyError Json
  | .obj kvs, k, v => .ok (.obj (objSet kvs k v))
  | _, _, _ => .error .typeError

/-- The structure-ensuring body of `load_bookmarks` (linkt.py lines
103-108): default the `bookmarks` and `next_id` keys when absent.
`TypeError` raised here is NOT caught by the surrounding handler,
which only catches decode errors. -/
def ensureStructure (d : Json) : Except PyError Json :=
  match pyContains d "bookmarks" with
  | .error e => .error e
  | .ok hasB =>
    match (if hasB then Except.ok d else pySetItem d "bookmarks" (.arr [])) with
    | .error e => .error e
    | .ok d1 =>
      match pyContains d1 "next_id" with
      | .error e => .error e
      | .ok hasN =>
        match (if hasN then Except.ok d1 else pySetItem d1 "next_id" (.num 1)) with
        | .error e => .error e
        | .ok d2 => .ok d2

/-- `BookmarkManager.load_bookmarks` (linkt.py lines 95-111). -/
def load_bookmarks : FileContent → LoadResult
  | .missing => ⟨.ok defaultContainer, false⟩
  | .corrupt => ⟨.ok defaultContainer, true⟩
  | .jsonFile d =>
    match ensureStructure d with
    | .ok d' => ⟨.ok d', false⟩
    | .error e => ⟨.error e, false⟩

/-- `BookmarkManager.save_bookmarks` (linkt.py lines 113-119): dumps
the container to the file.  `json.dump` followed by `json.load` is the
identity on JSON values, so at the value level a successful save
stores the container itself. -/
def save_bookmarks (d : Json) : FileContent := .jsonFile d

/-! ## Typed bookmark records and the in-memory store -/

/-- A bookmark record as `add_bookmark` constructs it (linkt.py lines
356-363 and 373/386). -/
structure Bookmark where
  id : Nat
  url : String
  description : String
  tags : List String
  created : String
  domain : String
  has_content : Bool
deriving DecidableEq

/-- The in-memory container `self.bookmarks`: the ordered bookmark
list plus the `next_id` counter. -/
structure Store where
  bookmarks : List Bookmark
  next_id : Nat
deriving DecidableEq

/-- The content-cache directory: one optional text blob per bookmark
id (absent covers both "file missing" and "file unreadable", which the
program treats alike when reading). -/
structure CacheFS where
  entries : Nat → Option String

/-- Write one cache entry. -/
def cacheWrite (cache : CacheFS) (i : Nat) (v : String) : CacheFS :=
  ⟨fun j => if j = i then some v else cache.entries j⟩

/-- Delete one cache entry. -/
def cacheDelete (cache : CacheFS) (i : Nat) : CacheFS :=
  ⟨fun j => if j = i then none else cache.entries j⟩

/-- JSON encoding of one bookmark record, with the exact keys and
insertion order `add_bookmark` produces. -/
def bookmarkToJson (b : Bookmark) : Json :=
  .obj [("id", .num b.id), ("url", .str b.url),
        ("description", .str b.description),
        ("tags", .arr (b.tags.map .str)), ("created", .str b.created),
        ("domain", .str b.domain), ("has_content", .bool b.has_content)]

/-- JSON encoding of the whole container as it sits in
`self.bookmarks` and is passed to `json.dump`. -/
def storeToJson (s : Store) : Json :=
  .obj [("bookmarks", .arr (s.bookmarks.map bookmarkToJson)),
        ("next_id", .num s.next_id)]

/-- Read a JSON string. -/
def jsonAsStr : Json → Option String
  | .str s => some s
  | _ => none

/-- Map a partial reading over a list, succeeding only when every
element reads. -/
def optMapAll {α β : Type} (f : α → Option β) : List α → Option (List β)
  | [] => some []
  | a :: rest => (f a).bind (fun b => (optMapAll f rest).map (fun bs => b :: bs))

/-- Spec-level reading of one persisted bookmark record (section 6 of
the spec names the exact fields); inverse of `bookmarkToJson`. -/
def bookmarkOfJson : Json → Option Bookmark
  | .obj [("id", .num i), ("url", .str u), ("description", .str d),
          ("tags", .arr ts), ("created", .str c), ("domain", .str dm),
          ("has_content", .bool h)] =>
    if 0 ≤ i then
      (optMapAll jsonAsStr ts).map (fun tags => ⟨i.toNat, u, d, tags, c, dm, h⟩)
    else none
  | _ => none

/-- Spec-level reading of the persisted container; inverse of
`storeToJson`. -/
def storeOfJson : Json → Option Store
  | .obj [("bookmarks", .arr bs), ("next_id", .num n)] =>
    if 0 ≤ n then (optMapAll bookmarkOfJson bs).map (fun l => ⟨l, n.toNat⟩)
    else none
  | _ => none

/-! ## Store operations -/

/-- Python `url.startswith(('http://', 'https://'))` normalisation in
`add_bookmark` (linkt.py lines 348-349). -/
def normalize_url (url : String) : String :=
  if url.startsWith "http://" || url.startsWith "https://" then url
  else "https://" ++ url

/-- Consume through the first occurrence of `pat`, returning what
follows it (case-sensitive); `none` when `pat` never occurs. -/
def afterLead : List Char → List Char → Option (List Char)
  | [], l => some l
  | _ :: _, [] => none
  | a :: as, b :: bs => if a = b then afterLead as bs else none

/-- Scan for the first occurrence of `pat` and return the remainder
after it. -/
def dropThroughSeq (pat : List Char) : List Char → Option (List Char)
  | [] => afterLead pat []
  | c :: rest =>
    match afterLead pat (c :: rest) with
    | some rem => some rem
    | none => dropThroughSeq pat rest

/-- Python `urlparse(url).netloc` for the scheme-qualified URLs the
program builds: the text between `"://"` and the next path, query or
fragment delimiter. -/
def pyNetloc (url : String) : String :=
  match dropThroughSeq "://".data url.data with
  | some rest =>
    String.mk (rest.takeWhile (fun c => c ≠ '/' && c ≠ '?' && c ≠ '#'))
  | none => ""

/-- `BookmarkManager.find_bookmark` (linkt.py lines 547-552): first
bookmark with the given id. -/
def find_bookmark (st : Store) (i : Nat) : Option Bookmark :=
  st.bookmarks.find? (fun b => b.id == i)

/-- Outcome of `remove_bookmark`: the new store and cache, and whether
`save_bookmarks` was invoked. -/
structure RemoveResult where
  store : Store
  cache : CacheFS
  saved : Bool

/-- `BookmarkManager.remove_bookmark` (linkt.py lines 554-573).  An
absent id prints a not-found message and returns before touching any
state; otherwise the bookmark is filtered out, its cache entry
deleted, and the container saved. -/
def remove_bookmark (st : Store) (cache : CacheFS) (i : Nat) : RemoveResult :=
  match find_bookmark st i with
  | none => ⟨st, cache, false⟩
  | some _ =>
    ⟨⟨st.bookmarks.filter (fun b => !(b.id == i)), st.next_id⟩,
     cacheDelete cache i, true⟩

/-- Outcome of `add_bookmark`: the new store and cache plus the
appended record. -/
structure AddResult where
  store : Store
  cache : CacheFS
  added : Bookmark

/-- `BookmarkManager.add_bookmark` (linkt.py lines 346-397) with the
fetched text supplied as `content` (the fetch itself is embedded
separately) and the cache write's success as `writeOk`.  `next_id` is
consumed and incremented before the fetch; the record gets
`has_content = true` exactly when the content is truthy and the cache
write succeeds. -/
def add_bookmark_core (st : Store) (cache : CacheFS) (url description : String)
    (tags : List String) (created : String) (content : String)
    (writeOk : Bool) : AddResult :=
  let nurl := normalize_url url
  let bid := st.next_id
  let cacheAndFlag :=
    if content ≠ "" then
      (if writeOk then (cacheWrite cache bid content, true) else (cache, false))
    else (cache, false)
  let bk : Bookmark :=
    ⟨bid, nurl, description, tags, created, pyNetloc nurl, cacheAndFlag.2⟩
  ⟨⟨st.bookmarks ++ [bk], st.next_id + 1⟩, cacheAndFlag.1, bk⟩

/-- One store mutation of the kinds the spec's id-monotonicity
property quantifies over. -/
inductive StoreOp where
  | add (url description : String) (tags : List String) (created : String)
        (content : String) (writeOk : Bool) : StoreOp
  | remove (i : Nat) : StoreOp

/-- Apply one operation; an `add` also reports the id it assigned. -/
def applyOp (st : Store) (cache : CacheFS) : StoreOp → (Store × CacheFS) × Option Nat
  | .add url desc tags created content writeOk =>
    let r := add_bookmark_core st cache url desc tags created content writeOk
    ((r.store, r.cache), some r.added.id)
  | .remove i =>
    let r := remove_bookmark st cache i
    ((r.store, r.cache), none)

/-- Run a sequence of operations, collecting the assigned ids in
order. -/
def runOps (st : Store) (cache : CacheFS) : List StoreOp → (Store × CacheFS) × List Nat
  | [] => ((st, cache), [])
  | op :: rest =>
    match applyOp st cache op with
    | ((st', cache'), some i) =>
      let r := runOps st' cache' rest
      (r.1, i :: r.2)
    | ((st', cache'), none) => runOps st' cache' rest

/-! ## Fetcher: HTML stripping and text extraction -/

/-- Split a character list at the first `'>'`: the characters before
it, and `some` remainder after it when one exists. -/
def breakAtGt : List Char → List Char × Option (List Char)
  | [] => ([], none)
  | c :: rest =>
    if c = '>' then ([], some rest)
    else
      let r := breakAtGt rest
      (c :: r.1, r.2)

theorem breakAtGt_some_length (l : List Char) (pre after : List Char)
    (h : breakAtGt l = (pre, some after)) : after.length < l.length := by
  induction l generalizing pre with
  | nil => simp [breakAtGt] at h
  | cons c rest ih =>
    by_cases hc : c = '>'
    · simp [breakAtGt, hc] at h
      simp [h.2.symm]
    · cases hbr : breakAtGt rest with
      | mk pre' opt =>
        simp [breakAtGt, hc, hbr] at h
        cases opt with
        | none => simp at h
        | some a' =>
          have ha : a' = after := by simpa using h.2
          have := ih pre' (ha ▸ hbr)
          simp
          omega

theorem dropWhileLenLe (p : Char → Bool) (l : List Char) :
    (l.dropWhile p).length ≤ l.length := by
  induction l with
  | nil => simp
  | cons c rest ih =>
    by_cases h : p c
    · simp [List.dropWhile_cons, h]
      omega
    · simp [List.dropWhile_cons, h]

/-- Case-insensitive prefix match: `pat` (already lower-case) against
the lower-cased head of `l`; returns the remainder on success. -/
def afterLeadCi : List Char → List Char → Option (List Char)
  | [], l => some l
  | _ :: _, [] => none
  | a :: as, b :: bs => if a = b.toLower then afterLeadCi as bs else none

theorem afterLeadCi_length (pat l rem : List Char)
    (h : afterLeadCi pat l = some rem) : rem.length ≤ l.length := by
  induction pat generalizing l with
  | nil =>
    simp [afterLeadCi] at h
    simp [h.symm]
  | cons a as ih =>
    cases l with
    | nil => simp [afterLeadCi] at h
    | cons b bs =>
      by_cases hb : a = b.toLower
      · simp [afterLeadCi, hb] at h
        have := ih _ h
        simp
        omega
      · simp [afterLeadCi, hb] at h

/-- Scan for the first case-insensitive occurrence of `pat` and return
the remainder after it (the regex engine's lazy `.*?pat`). -/
def dropThroughCi (pat : List Char) : List Char → Option (List Char)
  | [] => afterLeadCi pat []
  | c :: rest =>
    match afterLeadCi pat (c :: rest) with
    | some rem => some rem
    | none => dropThroughCi pat rest

theorem dropThroughCi_length (pat l rem : List Char)
    (h : dropThroughCi pat l = some rem) : rem.length ≤ l.length := by
  induction l with
  | nil =>
    simp [dropThroughCi] at h
    exact afterLeadCi_length _ _ _ h
  | cons c rest ih =>
    simp only [dropThroughCi] at h
    cases hm : afterLeadCi pat (c :: rest) with
    | some r =>
      rw [hm] at h
      simp at h
      subst h
      exact afterLeadCi_length _ _ _ hm
    | none =>
      rw [hm] at h
      simp at h
      have := ih h
      simp
      omega

/-- One attempted match of the regex `<(script|style)[^>]*>.*?</\1>`
at a position just past a `'<'`: match the (lower-cased) tag name
case-insensitively, skip attribute characters to the closing `'>'`,
then consume lazily through the matching close tag. -/
def tryTagMatch (tag : List Char) (afterLt : List Char) : Option (List Char) :=
  (afterLeadCi tag afterLt).bind (fun rest1 =>
    (breakAtGt rest1).2.bind (fun body =>
      dropThroughCi ('<' :: '/' :: (tag ++ ['>'])) body))

theorem tryTagMatch_length (tag l rem : List Char)
    (h : tryTagMatch tag l = some rem) : rem.length ≤ l.length := by
  unfold tryTagMatch at h
  cases hm : afterLeadCi tag l with
  | none => rw [hm] at h; simp at h
  | some rest1 =>
    rw [hm] at h
    simp only [Option.some_bind] at h
    cases hb : breakAtGt rest1 with
    | mk pre opt =>
      rw [hb] at h
      cases opt with
      | none => simp at h
      | some body =>
        simp only [Option.some_bind] at h
        have h1 := afterLeadCi_length _ _ _ hm
        have h2 := Nat.le_of_lt (breakAtGt_some_length _ _ _ hb)
        have h3 := dropThroughCi_length _ _ _ h
        omega

/-- The tag-name alternatives of the script/style regex. -/
def scriptChars : List Char := "script".data

/-- The second alternative of the script/style regex. -/
def styleChars : List Char := "style".data

/-- The first substitution of `extract_text_simple` (linkt.py line
327): delete every match of
`<(script|style)[^>]*>.*?</\1>` (DOTALL, IGNORECASE), scanning left to
right and resuming after each deleted match. -/
def stripScripts : List Char → List Char
  | [] => []
  | c :: rest =>
    if c = '<' then
      match h1 : tryTagMatch scriptChars rest with
      | some after => stripScripts after
      | none =>
        match h2 : tryTagMatch styleChars rest with
        | some after => stripScripts after
        | none => c :: stripScripts rest
    else c :: stripScripts rest
termination_by l => l.length
decreasing_by
  · have := tryTagMatch_length _ _ _ h1
    simp
    omega
  · have := tryTagMatch_length _ _ _ h2
    simp
    omega
  · simp
  · simp

/-- The second substitution of `extract_text_simple` (linkt.py line
330): delete every match of `<[^>]+>` (at least one non-`'>'`
character between the brackets), scanning left to right. -/
def stripTags : List Char → List Char
  | [] => []
  | c :: rest =>
    if c = '<' then
      match h : breakAtGt rest with
      | (pre, some after) =>
        if pre = [] then c :: stripTags rest else stripTags after
      | (_, none) => c :: stripTags rest
    else c :: stripTags rest
termination_by l => l.length
decreasing_by
  · simp
  · have := breakAtGt_some_length _ _ _ h
    simp
    omega
  · simp
  · simp

/-- The third substitution of `extract_text_simple` (linkt.py line
333): replace every maximal run of whitespace by a single space. -/
def collapseWs : List Char → List Char
  | [] => []
  | c :: rest =>
    if isPySpace c then ' ' :: collapseWs (rest.dropWhile isPySpace)
    else c :: collapseWs rest
termination_by l => l.length
decreasing_by
  · have := dropWhileLenLe isPySpace rest
    simp
    omega
  · simp

/-- The truncation marker appended by every 3000/4000-budget
strategy. -/
def truncMarker : String := "\n\n... (truncated)"

/-- Renderer tag of `extract_text_simple`. -/
def simpleHeader : String := "📄 Extracted Text:\n\n"

/-- The fully cleaned text of `extract_text_simple` just before its
length check: scripts/styles deleted, tags deleted, whitespace
collapsed, ends stripped. -/
def simpleCleaned (html : String) : String :=
  pyStrip (String.mk (collapseWs (stripTags (stripScripts html.data))))

/-- `BookmarkManager.extract_text_simple` (linkt.py lines 324-340). -/
def extract_text_simple (html : String) : String :=
  let text := simpleCleaned html
  let text :=
    if text.length > 3000 then pyTakeStr 3000 text ++ truncMarker else text
  simpleHeader ++ text

/-- Renderer tag of `extract_text_with_html2text`. -/
def h2tHeader : String := "📄 Text Browser View:\n\n"

/-- One iteration of the whitespace-cleanup loop in
`extract_text_with_html2text` (linkt.py lines 265-272): keep non-blank
lines right-stripped, and allow at most two consecutive blank lines. -/
def cleanupStep : List String × Nat → String → List String × Nat
  | (acc, ec), line =>
    if pyStrip line ≠ "" then (acc ++ [pyRstrip line], 0)
    else if ec + 1 ≤ 2 then (acc ++ [""], ec + 1)
    else (acc, ec + 1)

/-- The cleanup stage of `extract_text_with_html2text` (linkt.py lines
260-274) applied to the text `html2text` handed back. -/
def html2textCleanup (t : String) : String :=
  let lines := (splitOnChar '\n' t.data).map String.mk
  pyStrip (joinWith "\n" (lines.foldl cleanupStep ([], 0)).1)

/-- `BookmarkManager.extract_text_with_html2text` (linkt.py lines
245-283), taking the result of the external `h.handle(html)` call as
input: `ok` the produced markdown-ish text, `error` an exception
message from the library. -/
def extract_text_with_html2text (handled : Except String String) : String :=
  match handled with
  | .error m => "❌ html2text error: " ++ m
  | .ok raw =>
    let text := html2textCleanup raw
    let text :=
      if text.length > 4000 then pyTakeStr 4000 text ++ truncMarker else text
    h2tHeader ++ text

/-! ## Fetcher: external processes, HTTP, and strategy selection -/

/-- Outcome of one `subprocess.run` invocation: the timeout
exception, a missing executable, some other exception (with its
message), or completion with exit code, stdout and stderr. -/
inductive SubprocResult where
  | timeout : SubprocResult
  | notFound : SubprocResult
  | exc (msg : String) : SubprocResult
  | done (returncode : Int) (stdout stderr : String) : SubprocResult

/-- Renderer tag of `fetch_with_links`. -/
def linksHeader : String := "🔗 Links Browser View:\n\n"

/-- Renderer tag of `fetch_with_lynx`. -/
def lynxHeader : String := "🦌 Lynx Browser View:\n\n"

/-- `BookmarkManager.fetch_with_links` (linkt.py lines 171-202). -/
def fetch_with_links (r : SubprocResult) : String :=
  match r with
  | .timeout => "⏰ Links timeout - page took too long to load"
  | .notFound => "❌ Links not found (this shouldn't happen)"
  | .exc m => "❌ Links error: " ++ m
  | .done rc out err =>
    if rc = 0 ∧ pyStrip out ≠ "" then
      let content := pyStrip out
      let content :=
        if content.length > 4000 then pyTakeStr 4000 content ++ truncMarker
        else content
      linksHeader ++ content
    else
      "❌ Links failed: " ++ (if err ≠ "" then pyStrip err else "Unknown error")

/-- The retry step of `fetch_with_lynx` (linkt.py lines 217-224): a
completed first run with non-zero exit code is replaced by the second
run's outcome; an exception from the first run short-circuits past
the retry. -/
def lynxEffective (r1 r2 : SubprocResult) : SubprocResult :=
  match r1 with
  | .done rc1 out1 err1 => if rc1 ≠ 0 then r2 else .done rc1 out1 err1
  | r => r

/-- The rendering/reporting tail of `fetch_with_lynx` (linkt.py lines
226-243), applied to the effective subprocess outcome. -/
def lynxRender : SubprocResult → String
  | .timeout => "⏰ Lynx timeout - page took too long to load"
  | .notFound => "❌ Lynx not found (this shouldn't happen)"
  | .exc m => "❌ Lynx error: " ++ m
  | .done rc out err =>
    if rc = 0 ∧ pyStrip out ≠ "" then
      let content := pyStrip out
      let content :=
        if content.length > 4000 then pyTakeStr 4000 content ++ truncMarker
        else content
      lynxHeader ++ content
    else
      "❌ Lynx failed: " ++ (if err ≠ "" then pyStrip err else "Unknown error")

/-- `BookmarkManager.fetch_with_lynx` (linkt.py lines 204-243): run
once with `-nolist -nonumbers`; on a non-zero exit code run a second
time with plain `-dump`; then render or report exactly like the Links
path (with Lynx wording). -/
def fetch_with_lynx (r1 r2 : SubprocResult) : String :=
  lynxRender (lynxEffective r1 r2)

/-- Outcome of the `requests.get` + `raise_for_status` step: a
`RequestException`, some other exception, or a response with its
content-type header, text body, and raw byte length. -/
inductive HttpResult where
  | requestError (msg : String) : HttpResult
  | otherExc (msg : String) : HttpResult
  | response (contentType : String) (text : String) (contentLength : Nat) : HttpResult

/-- The capability flags probed once at import time (linkt.py lines
29-55). -/
structure Caps where
  hasLinks : Bool
  hasLynx : Bool
  hasRequests : Bool
  hasHtml2text : Bool
  hasBeautifulSoup : Bool

/-- Everything the environment decides for one `fetch_page_text`
call: the capability flags, the outcome each subprocess invocation
would have, the outcome the HTTP request would have, and the text the
`html2text` library would hand back for the response body. -/
structure FetchEnv where
  caps : Caps
  links : SubprocResult
  lynx1 : SubprocResult
  lynx2 : SubprocResult
  http : HttpResult
  handled : Except String String

/-- The static placeholder returned when neither a text browser nor
the `requests` library is available (linkt.py line 133). -/
def noRequestsMsg : String :=
  "⚠️  Install requests for web content: pip install requests\n⚠️  Or install links/lynx for best experience:\n   • Links: http://links.twibright.com\n   • Lynx: apt install lynx / brew install lynx"

/-- Type label of the JSON content branch. -/
def jsonHeader : String := "📄 JSON Content:\n\n"

/-- Type label of the plain-text content branch. -/
def textHeader : String := "📄 Text Content:\n\n"

/-- The message of the `AttributeError` raised at linkt.py line 162:
the method `extract_text_with_bs4` is called but never defined — its
intended body sits unreachable inside `extract_text_with_html2text`
(lines 284-322) with its `def` line missing. -/
def bs4MissingMethodMsg : String :=
  "'BookmarkManager' object has no attribute 'extract_text_with_bs4'"

/-- `BookmarkManager.fetch_page_text` (linkt.py lines 121-169):
strategy selection, content-type classification, and the
HTML-to-text pipeline dispatch.  The BeautifulSoup branch calls the
missing method `extract_text_with_bs4`; the resulting
`AttributeError` is caught by the `except Exception` handler at line
168 and surfaces as the generic processing-error string. -/
def fetch_page_text (env : FetchEnv) : String :=
  if env.caps.hasLinks then fetch_with_links env.links
  else if env.caps.hasLynx then fetch_with_lynx env.lynx1 env.lynx2
  else if !env.caps.hasRequests then noRequestsMsg
  else
    match env.http with
    | .requestError m => "❌ Failed to fetch: " ++ m
    | .otherExc m => "❌ Error processing content: " ++ m
    | .response ctype text clen =>
      let ct := strLower ctype
      if !(strContains ct "text/html") then
        if strContains ct "application/json" then
          jsonHeader ++ pyTakeStr 2000 text ++ "..."
        else if strContains ct "text/" then
          textHeader ++ pyTakeStr 2000 text ++ "..."
        else
          "📄 Binary content (" ++ ct ++ ")\nSize: " ++ toString clen ++ " bytes"
      else if env.caps.hasHtml2text then extract_text_with_html2text env.handled
      else if env.caps.hasBeautifulSoup then
        "❌ Error processing content: " ++ bs4MissingMethodMsg
      else extract_text_simple text

/-- `BookmarkManager.add_bookmark` (linkt.py lines 346-397) with the
fetch performed through the embedded Fetcher. -/
def add_bookmark (st : Store) (cache : CacheFS) (env : FetchEnv)
    (url description : String) (tags : List String) (created : String)
    (writeOk : Bool) : AddResult :=
  add_bookmark_core st cache url description tags created (fetch_page_text env) writeOk

/-! ## Search and TUI filtering -/

/-- The metadata string `search_bookmarks` and
`get_filtered_bookmarks` build for one bookmark (linkt.py lines 518
and 684): url, description and space-joined tags, space-separated. -/
def bookmarkSearchable (b : Bookmark) : String :=
  b.url ++ " " ++ b.description ++ " " ++ joinWith " " b.tags

/-- Case-insensitive metadata substring match. -/
def metadataMatches (q : String) (b : Bookmark) : Bool :=
  strContains (strLower (bookmarkSearchable b)) (strLower q)

/-- Case-insensitive cached-content substring match; a missing or
unreadable cache entry never matches. -/
def contentMatches (q : String) (cache : CacheFS) (b : Bookmark) : Bool :=
  match cache.entries b.id with
  | some c => strContains (strLower c) (strLower q)
  | none => false

/-- Which part of a bookmark a search hit came from. -/
inductive MatchKind where
  | metadata : MatchKind
  | content : MatchKind
deriving DecidableEq

/-- `BookmarkManager.search_bookmarks` (linkt.py lines 511-545): one
pass in storage order; the metadata check short-circuits (`continue`)
before the content check ever runs. -/
def search_bookmarks (st : Store) (cache : CacheFS) (q : String) :
    List (Bookmark × MatchKind) :=
  st.bookmarks.filterMap (fun b =>
    if metadataMatches q b then some (b, .metadata)
    else if contentMatches q cache b then some (b, .content)
    else none)

/-- `BookmarkManager.get_filtered_bookmarks` (linkt.py lines
674-701): same match rule, unlabeled, with the empty query returning
the whole list. -/
def get_filtered_bookmarks (st : Store) (cache : CacheFS) (q : String) :
    List Bookmark :=
  if q = "" then st.bookmarks
  else
    st.bookmarks.filterMap (fun b =>
      if metadataMatches q b then some b
      else if contentMatches q cache b then some b
      else none)

/-! ## The TUI input loop's view state -/

/-- The list the TUI computes at the top of each loop iteration
(linkt.py line 604): the filter query is passed through ONLY while
search-entry mode is active; otherwise the empty query is passed. -/
def tuiDisplayedList (st : Store) (cache : CacheFS) (searchMode : Bool)
    (searchQuery : String) : List Bookmark :=
  get_filtered_bookmarks st cache (if searchMode then searchQuery else "")

/-- One keypress of `run_tui` acting on the view state
`(searchMode, searchQuery, selectedIndex)` (linkt.py lines 619-667),
with `len` the length of the currently displayed list.  Keys are the
decoded strings `get_key_termios` produces.  Action keys (enter, c,
d, a, r, ?, q) leave this state triple unchanged. -/
def tuiStep (len : Int) (searchMode : Bool) (searchQuery : String) (idx : Int)
    (key : String) : Bool × String × Int :=
  if searchMode then
    if key = "\x1b" then (false, "", 0)
    else if key = "\r" then (false, searchQuery, 0)
    else if key = "\x7f" ∨ key = "\x08" then
      (if searchQuery ≠ "" then (true, pyTakeStr (searchQuery.length - 1) searchQuery, 0)
       else (false, searchQuery, 0))
    else if pyIsPrintable key then (true, searchQuery ++ key, 0)
    else (true, searchQuery, idx)
  else
    if key = "j" ∨ key = "DOWN" then (false, searchQuery, min (len - 1) (idx + 1))
    else if key = "k" ∨ key = "UP" then (false, searchQuery, max 0 (idx - 1))
    else if key = "g" then (false, searchQuery, 0)
    else if key = "G" then (false, searchQuery, max 0 (len - 1))
    else if key = "/" then (true, "", idx)
    else (false, searchQuery, idx)

/-- The bounds fix-up at the top of each loop iteration (linkt.py
lines 607-608): only an index at or past the end is pulled back. -/
def loopClamp (len idx : Int) : Int :=
  if idx ≥ len then max 0 (len - 1) else idx

/-! ## General helper lemmas -/

theorem strLength_mk (l : List Char) : (String.mk l).length = l.length := rfl

theorem strData_append (s t : String) : (s ++ t).data = s.data ++ t.data := by
  cases s
  cases t
  rfl

theorem strLength_append (s t : String) : (s ++ t).length = s.length + t.length := by
  cases s with
  | mk a =>
    cases t with
    | mk b =>
      show (a ++ b).length = a.length + b.length
      exact List.length_append a b

theorem strLength_pos_of_ne (s : String) (h : s ≠ "") : 0 < s.length := by
  cases s with
  | mk l =>
    cases l with
    | nil => exact absurd rfl h
    | cons c cs =>
      show 0 < (c :: cs).length
      simp

theorem strNe_empty_of_length (s : String) (h : 0 < s.length) : s ≠ "" := by
  intro he
  subst he
  exact absurd h (by decide)

theorem strNe_empty_append_left (s t : String) (h : s ≠ "") : s ++ t ≠ "" := by
  apply strNe_empty_of_length
  rw [strLength_append]
  have := strLength_pos_of_ne s h
  omega

theorem pyTakeStr_length_le (n : Nat) (s : String) : (pyTakeStr n s).length ≤ n := by
  show (s.data.take n).length ≤ n
  simp [List.length_take]

theorem pyTakeStr_length_eq (n : Nat) (s : String) (h : n ≤ s.length) :
    (pyTakeStr n s).length = n := by
  show (s.data.take n).length = n
  have hd : n ≤ s.data.length := h
  simp [List.length_take]
  omega

/-! ## Claim C3: corruption recovery in `load_bookmarks` -/

/-- C3 counterexample: a file whose content parses as the JSON array
`[]` (well-formed JSON, but not the expected object shape) makes
`load_bookmarks` raise a `TypeError` to its caller — the list does not
support string-key assignment and the surrounding handler only
catches decode errors — instead of returning the empty default
container. -/
theorem C3_counterexample :
    (load_bookmarks (.jsonFile (.arr []))).result = .error .typeError
    ∧ load_bookmarks (.jsonFile (.arr [])) ≠ ⟨.ok defaultContainer, false⟩
    ∧ load_bookmarks (.jsonFile (.arr [])) ≠ ⟨.ok defaultContainer, true⟩ := by
  have hr : (load_bookmarks (.jsonFile (.arr []))).result = .error .typeError := rfl
  refine ⟨hr, ?_, ?_⟩ <;> intro h <;> rw [h] at hr <;> exact absurd hr (by simp)

/-- C3 (amended): content that fails to decode yields the empty
default container `{bookmarks: [], next_id: 1}` with a warning, and a
missing file yields the same default without a warning, never raising;
content that parses to a JSON object is returned (with the two keys
defaulted when absent) without raising — but content that parses to a
non-object JSON value can raise a `TypeError` to the caller. -/
theorem C3_amended :
    load_bookmarks .corrupt = ⟨.ok defaultContainer, true⟩
    ∧ load_bookmarks .missing = ⟨.ok defaultContainer, false⟩
    ∧ ∀ kvs : List (String × Json), ∃ d : Json,
        load_bookmarks (.jsonFile (.obj kvs)) = ⟨.ok d, false⟩ := by
  refine ⟨rfl, rfl, ?_⟩
  intro kvs
  simp only [load_bookmarks, ensureStructure, pyContains, pySetItem]
  by_cases hb : kvs.any (fun p => p.1 == "bookmarks") = true
  · simp only [hb, if_true]
    by_cases hn : kvs.any (fun p => p.1 == "next_id") = true
    · refine ⟨.obj kvs, ?_⟩
      simp [hn]
    · refine ⟨.obj (objSet kvs "next_id" (.num 1)), ?_⟩
      simp [hn]
  · simp only [Bool.not_eq_true] at hb
    simp only [hb, Bool.false_eq_true, if_false]
    by_cases hn : (objSet kvs "bookmarks" (.arr [])).any (fun p => p.1 == "next_id") = true
    · refine ⟨.obj (objSet kvs "bookmarks" (.arr [])), ?_⟩
      simp [hn]
    · refine ⟨.obj (objSet (objSet kvs "bookmarks" (.arr [])) "next_id" (.num 1)), ?_⟩
      simp [hn]

/-! ## Claim C10: removal of an absent id -/

/-- C10: when the id is not in the store, `remove_bookmark` leaves the
container and the cache untouched and never calls `save_bookmarks`
(it only prints a not-found message). -/
theorem C10_remove_absent (st : Store) (cache : CacheFS) (i : Nat)
    (h : find_bookmark st i = none) :
    remove_bookmark st cache i = ⟨st, cache, false⟩ := by
  unfold remove_bookmark
  rw [h]

/-- C10 witness: removing id 2 from a store holding only id 1. -/
theorem C10_remove_absent_witness :
    remove_bookmark ⟨[⟨1, "https://a.com", "", [], "2024-01-01", "a.com", false⟩], 2⟩
        ⟨fun _ => none⟩ 2
      = ⟨⟨[⟨1, "https://a.com", "", [], "2024-01-01", "a.com", false⟩], 2⟩,
         ⟨fun _ => none⟩, false⟩ :=
  C10_remove_absent ⟨[⟨1, "https://a.com", "", [], "2024-01-01", "a.com", false⟩], 2⟩
    ⟨fun _ => none⟩ 2 (by decide)

/-! ## Claim C1: the confirmed search query as a display filter -/

/-- C1: pressing Enter in search-entry mode does leave the mode with
the query kept and the selection reset — but on the next loop
iteration `run_tui` passes the EMPTY query to
`get_filtered_bookmarks` (line 604 passes the query only while
`search_mode` is true), so the displayed list is the full bookmark
list even though the query "x" matches nothing: the confirmed query
does not filter the display, contradicting both the spec and the
program's own status line ("Filtered: ...") and search-mode footer
("Enter: apply filter"). -/
theorem C1_confirmed_filter_bug :
    tuiStep 1 true "x" 0 "\r" = (false, "x", 0)
    ∧ tuiDisplayedList ⟨[⟨1, "https://a.com", "", [], "2024-01-01", "a.com", false⟩], 2⟩
        ⟨fun _ => none⟩ false "x"
        = [⟨1, "https://a.com", "", [], "2024-01-01", "a.com", false⟩]
    ∧ get_filtered_bookmarks ⟨[⟨1, "https://a.com", "", [], "2024-01-01", "a.com", false⟩], 2⟩
        ⟨fun _ => none⟩ "x" = [] := by
  refine ⟨by decide, by decide, by decide⟩

/-! ## Claim C2: selection clamping -/

/-- C2 counterexample: with an empty filtered list, pressing Down
(`j`) sets `selected_index` to `min(len-1, idx+1) = min(-1, 1) = -1`,
and the loop-top bounds fix-up does not repair it (`-1 >= 0` is
false), so the index is neither within `[0, len-1]` nor equal to 0. -/
theorem C2_counterexample :
    (tuiStep 0 false "" 0 "j").2.2 = -1
    ∧ loopClamp 0 (tuiStep 0 false "" 0 "j").2.2 = -1 := by
  decide

/-- C2 (amended): whenever the filtered list is non-empty, every key
leaves `selectedIndex` within `[0, len-1]`; the loop-top fix-up keeps
a non-negative index at 0 for an empty list and in range for a
non-empty one; six Downs from index 0 over a 5-element list end at 4
and Up from 0 stays at 0; and on an empty list the keys `k`, `g` and
`G` keep the index at 0 — but `j` on an empty list drives it to -1
(see the counterexample). -/
theorem C2_clamping_amended :
    (∀ (len idx : Int) (m : Bool) (q key : String), 0 < len → 0 ≤ idx → idx < len →
      0 ≤ (tuiStep len m q idx key).2.2 ∧ (tuiStep len m q idx key).2.2 < len)
    ∧ (∀ (len idx : Int), 0 ≤ idx →
        (len = 0 → loopClamp len idx = 0)
        ∧ (0 < len → 0 ≤ loopClamp len idx ∧ loopClamp len idx < len))
    ∧ (tuiStep 5 false "" (tuiStep 5 false "" (tuiStep 5 false ""
        (tuiStep 5 false "" (tuiStep 5 false ""
          (tuiStep 5 false "" 0 "j").2.2 "j").2.2 "j").2.2 "j").2.2 "j").2.2 "j").2.2 = 4
    ∧ (tuiStep 5 false "" 0 "k").2.2 = 0
    ∧ (tuiStep 0 false "" 0 "k").2.2 = 0
    ∧ (tuiStep 0 false "" 0 "g").2.2 = 0
    ∧ (tuiStep 0 false "" 0 "G").2.2 = 0 := by
  refine ⟨?_, ?_, by decide, by decide, by decide, by decide, by decide⟩
  · intro len idx m q key h1 h2 h3
    unfold tuiStep
    split_ifs <;> simp <;> omega
  · intro len idx h
    unfold loopClamp
    constructor
    · intro hlen
      subst hlen
      split_ifs <;> omega
    · intro hlen
      split_ifs <;> constructor <;> omega

/-- C2 witness: the amended clamping applied with a 5-element list at
index 2 on key `j`, and the loop fix-up at length 3, index 2. -/
theorem C2_clamping_witness :
    (0 ≤ (tuiStep 5 false "" 2 "j").2.2 ∧ (tuiStep 5 false "" 2 "j").2.2 < 5)
    ∧ ((3 : Int) = 0 → loopClamp 3 2 = 0)
    ∧ (0 < (3 : Int) → 0 ≤ loopClamp 3 2 ∧ loopClamp 3 2 < 3) :=
  ⟨C2_clamping_amended.1 5 2 false "" "j" (by decide) (by decide) (by decide),
   (C2_clamping_amended.2.1 3 2 (by decide)).1,
   (C2_clamping_amended.2.1 3 2 (by decide)).2⟩

/-! ## Claim C8: the BeautifulSoup HTML-to-text path -/

/-- C8: with no text browser, `requests` available, `html2text`
absent and BeautifulSoup present, an HTML response does NOT go
through a BeautifulSoup conversion: the source calls
`self.extract_text_with_bs4`, a method that is never defined (its
intended body sits unreachable, missing its `def` line, inside
`extract_text_with_html2text` at lines 284-322), so the call raises
`AttributeError` and the generic handler turns the whole fetch into a
processing-error message. -/
theorem C8_bs4_path_bug :
    fetch_page_text ⟨⟨false, false, true, false, true⟩, .timeout, .timeout, .timeout,
        .response "text/html" "<p>hello</p>" 12, .error ""⟩
      = "❌ Error processing content: " ++ bs4MissingMethodMsg := by
  rfl

/-! ## Claim C4: search precedence and uniqueness -/

theorem searchEntry_fst (q : String) (cache : CacheFS) (x : Bookmark)
    (b : Bookmark) (k : MatchKind)
    (h : (if metadataMatches q x then some (x, MatchKind.metadata)
          else if contentMatches q cache x then some (x, MatchKind.content)
          else none) = some (b, k)) : x = b := by
  split_ifs at h <;> simp_all

theorem search_count_metadata (q : String) (cache : CacheFS) (b : Bookmark)
    (hmeta : metadataMatches q b = true) (l : List Bookmark) :
    (l.filterMap (fun x =>
        if metadataMatches q x then some (x, MatchKind.metadata)
        else if contentMatches q cache x then some (x, MatchKind.content)
        else none)).count (b, MatchKind.metadata) = l.count b := by
  induction l with
  | nil => rfl
  | cons a l ih =>
    by_cases hab : a = b
    · subst hab
      simp [List.filterMap_cons, hmeta, List.count_cons, ih]
    · rw [List.filterMap_cons]
      cases hfa : (if metadataMatches q a then some (a, MatchKind.metadata)
          else if contentMatches q cache a then some (a, MatchKind.content)
          else none) with
      | none =>
        simp only [List.count_cons, ih]
        simp [hab]
      | some y =>
        cases y with
        | mk yb yk =>
          have : a = yb := searchEntry_fst q cache a yb yk hfa
          subst this
          have hne : (a, yk) ≠ (b, MatchKind.metadata) := by
            intro he
            exact hab (congrArg Prod.fst he)
          simp only [List.count_cons, ih]
          simp [hne, hab]

theorem search_sublist (q : String) (cache : CacheFS) (l : List Bookmark) :
    List.Sublist ((l.filterMap (fun x =>
        if metadataMatches q x then some (x, MatchKind.metadata)
        else if contentMatches q cache x then some (x, MatchKind.content)
        else none)).map Prod.fst) l := by
  induction l with
  | nil => simp
  | cons a l ih =>
    rw [List.filterMap_cons]
    cases hfa : (if metadataMatches q a then some (a, MatchKind.metadata)
        else if contentMatches q cache a then some (a, MatchKind.content)
        else none) with
    | none => exact List.Sublist.cons a ih
    | some y =>
      have : a = y.1 := searchEntry_fst q cache a y.1 y.2 (by rw [hfa])
      rw [List.map_cons, ← this]
      exact List.Sublist.cons₂ a ih

/-- C4: a bookmark stored once that matches the query both in
metadata and in cached content is reported exactly once by
`search_bookmarks`, with kind `metadata` (never `content`), and the
result sequence preserves storage order (it is a sublist of the
store). -/
theorem C4_search_precedence (st : Store) (cache : CacheFS) (q : String)
    (b : Bookmark) (hcount : st.bookmarks.count b = 1)
    (hmeta : metadataMatches q b = true)
    (hcont : contentMatches q cache b = true) :
    (search_bookmarks st cache q).count (b, MatchKind.metadata) = 1
    ∧ (b, MatchKind.content) ∉ search_bookmarks st cache q
    ∧ List.Sublist ((search_bookmarks st cache q).map Prod.fst) st.bookmarks := by
  refine ⟨?_, ?_, ?_⟩
  · rw [search_bookmarks, search_count_metadata q cache b hmeta, hcount]
  · intro hmem
    rw [search_bookmarks, List.mem_filterMap] at hmem
    obtain ⟨a, _, hfa⟩ := hmem
    have hab : a = b := searchEntry_fst q cache a b MatchKind.content hfa
    subst hab
    rw [if_pos hmeta] at hfa
    simp at hfa
  · exact search_sublist q cache st.bookmarks

/-- C4 witness: a one-bookmark store whose single record matches the
query `x` both in its URL and in its cached content. -/
theorem C4_search_precedence_witness :
    (search_bookmarks ⟨[⟨1, "https://x.com", "", [], "2024-01-01", "x.com", true⟩], 2⟩
        ⟨fun i => if i = 1 then some "some x content" else none⟩ "x").count
        (⟨1, "https://x.com", "", [], "2024-01-01", "x.com", true⟩, MatchKind.metadata) = 1
    ∧ (⟨1, "https://x.com", "", [], "2024-01-01", "x.com", true⟩, MatchKind.content)
        ∉ search_bookmarks ⟨[⟨1, "https://x.com", "", [], "2024-01-01", "x.com", true⟩], 2⟩
          ⟨fun i => if i = 1 then some "some x content" else none⟩ "x"
    ∧ List.Sublist ((search_bookmarks ⟨[⟨1, "https://x.com", "", [], "2024-01-01", "x.com", true⟩], 2⟩
          ⟨fun i => if i = 1 then some "some x content" else none⟩ "x").map Prod.fst)
        [⟨1, "https://x.com", "", [], "2024-01-01", "x.com", true⟩] :=
  C4_search_precedence ⟨[⟨1, "https://x.com", "", [], "2024-01-01", "x.com", true⟩], 2⟩
    ⟨fun i => if i = 1 then some "some x content" else none⟩ "x"
    ⟨1, "https://x.com", "", [], "2024-01-01", "x.com", true⟩
    (by decide) (by decide) (by decide)

/-! ## Claim C5: id monotonicity -/

theorem add_core_next_id (st : Store) (cache : CacheFS) (u d : String)
    (t : List String) (c ct : String) (w : Bool) :
    (add_bookmark_core st cache u d t c ct w).store.next_id = st.next_id + 1 := rfl

theorem add_core_added_id (st : Store) (cache : CacheFS) (u d : String)
    (t : List String) (c ct : String) (w : Bool) :
    (add_bookmark_core st cache u d t c ct w).added.id = st.next_id := rfl

theorem add_core_bookmarks (st : Store) (cache : CacheFS) (u d : String)
    (t : List String) (c ct : String) (w : Bool) :
    (add_bookmark_core st cache u d t c ct w).store.bookmarks
      = st.bookmarks ++ [(add_bookmark_core st cache u d t c ct w).added] := rfl

theorem remove_next_id (st : Store) (cache : CacheFS) (i : Nat) :
    (remove_bookmark st cache i).store.next_id = st.next_id := by
  unfold remove_bookmark
  cases find_bookmark st i <;> rfl

theorem remove_bookmarks_subset (st : Store) (cache : CacheFS) (i : Nat)
    (b : Bookmark) (h : b ∈ (remove_bookmark st cache i).store.bookmarks) :
    b ∈ st.bookmarks := by
  unfold remove_bookmark at h
  cases hf : find_bookmark st i with
  | none =>
    rw [hf] at h
    exact h
  | some x =>
    rw [hf] at h
    exact List.mem_of_mem_filter h

/-- C5: starting from a container whose `next_id` is one more than
the maximum id ever assigned (`m`) and whose stored ids are all at
most `m`, any sequence of add/remove operations assigns the
consecutive ids `m+1, m+2, ...` — so each add gets the previous
maximum-ever id plus one, ids are never reused after deletion (every
new id exceeds `m` and all ids assigned before it) — and the final
container's `next_id` stays strictly greater than every stored
bookmark's id. -/
theorem C5_id_monotonic (ops : List StoreOp) (st : Store) (cache : CacheFS) (m : Nat)
    (h1 : st.next_id = m + 1) (h2 : ∀ b ∈ st.bookmarks, b.id ≤ m) :
    (runOps st cache ops).2 = List.range' (m + 1) (runOps st cache ops).2.length
    ∧ (∀ i ∈ (runOps st cache ops).2, m < i)
    ∧ (runOps st cache ops).1.1.next_id = m + 1 + (runOps st cache ops).2.length
    ∧ ∀ b ∈ (runOps st cache ops).1.1.bookmarks,
        b.id < (runOps st cache ops).1.1.next_id := by
  induction ops generalizing st cache m with
  | nil =>
    refine ⟨rfl, ?_, ?_, ?_⟩
    · intro i hi
      simp [runOps] at hi
    · show st.next_id = m + 1 + 0
      omega
    intro b hb
    have hle := h2 b hb
    have hn : (runOps st cache []).1.1.next_id = st.next_id := rfl
    rw [hn, h1]
    omega
  | cons op rest ih =>
    cases op with
    | add u d t c ct w =>
      have hrun : runOps st cache (StoreOp.add u d t c ct w :: rest)
          = ((runOps (add_bookmark_core st cache u d t c ct w).store
                (add_bookmark_core st cache u d t c ct w).cache rest).1,
             (add_bookmark_core st cache u d t c ct w).added.id
               :: (runOps (add_bookmark_core st cache u d t c ct w).store
                    (add_bookmark_core st cache u d t c ct w).cache rest).2) := rfl
      have hih := ih (add_bookmark_core st cache u d t c ct w).store
        (add_bookmark_core st cache u d t c ct w).cache (m + 1)
        (by rw [add_core_next_id, h1])
        (by
          intro b hb
          rw [add_core_bookmarks] at hb
          rcases List.mem_append.mp hb with hbl | hbr
          · exact Nat.le_succ_of_le (h2 b hbl)
          · have : b = (add_bookmark_core st cache u d t c ct w).added := by
              simpa using hbr
            rw [this, add_core_added_id, h1])
      obtain ⟨ha, hbnd, hnext, hinv⟩ := hih
      rw [hrun]
      refine ⟨?_, ?_, ?_, ?_⟩
      · simp only []
        rw [add_core_added_id, h1]
        rw [List.length_cons, List.range'_succ]
        exact congrArg (List.cons (m + 1)) ha
      · intro i hi
        simp only [List.mem_cons] at hi
        rcases hi with hi | hi
        · rw [hi, add_core_added_id, h1]
          omega
        · have := hbnd i hi
          omega
      · simp only [List.length_cons]
        rw [hnext]
        omega
      · exact hinv
    | remove j =>
      have hrun : runOps st cache (StoreOp.remove j :: rest)
          = runOps (remove_bookmark st cache j).store
              (remove_bookmark st cache j).cache rest := rfl
      have hih := ih (remove_bookmark st cache j).store
        (remove_bookmark st cache j).cache m
        (by rw [remove_next_id, h1])
        (fun b hb => h2 b (remove_bookmarks_subset st cache j b hb))
      rw [hrun]
      exact hih

/-- C5 witness: from the fresh container (`next_id = 1`, maximum-ever
id 0), run add, remove the first id, add again. -/
theorem C5_id_monotonic_witness :
    (runOps ⟨[], 1⟩ ⟨fun _ => none⟩
        [.add "a.com" "" [] "d" "c" true, .remove 1, .add "b.com" "" [] "d" "c" true]).2
      = List.range' 1 (runOps ⟨[], 1⟩ ⟨fun _ => none⟩
          [.add "a.com" "" [] "d" "c" true, .remove 1, .add "b.com" "" [] "d" "c" true]).2.length
    ∧ (∀ i ∈ (runOps ⟨[], 1⟩ ⟨fun _ => none⟩
        [.add "a.com" "" [] "d" "c" true, .remove 1, .add "b.com" "" [] "d" "c" true]).2, 0 < i)
    ∧ (runOps ⟨[], 1⟩ ⟨fun _ => none⟩
        [.add "a.com" "" [] "d" "c" true, .remove 1, .add "b.com" "" [] "d" "c" true]).1.1.next_id
      = 0 + 1 + (runOps ⟨[], 1⟩ ⟨fun _ => none⟩
          [.add "a.com" "" [] "d" "c" true, .remove 1, .add "b.com" "" [] "d" "c" true]).2.length
    ∧ ∀ b ∈ (runOps ⟨[], 1⟩ ⟨fun _ => none⟩
        [.add "a.com" "" [] "d" "c" true, .remove 1, .add "b.com" "" [] "d" "c" true]).1.1.bookmarks,
        b.id < (runOps ⟨[], 1⟩ ⟨fun _ => none⟩
          [.add "a.com" "" [] "d" "c" true, .remove 1, .add "b.com" "" [] "d" "c" true]).1.1.next_id :=
  C5_id_monotonic [.add "a.com" "" [] "d" "c" true, .remove 1, .add "b.com" "" [] "d" "c" true]
    ⟨[], 1⟩ ⟨fun _ => none⟩ 0 rfl (by simp)

/-! ## Claim C9: save/load round trip -/

theorem tagsRoundTrip (ts : List String) :
    optMapAll jsonAsStr (ts.map Json.str) = some ts := by
  induction ts with
  | nil => rfl
  | cons t rest ih => simp [optMapAll, jsonAsStr, ih]

theorem bookmarkOfJson_toJson (b : Bookmark) :
    bookmarkOfJson (bookmarkToJson b) = some b := by
  cases b with
  | mk i u d t c dm h =>
    simp only [bookmarkToJson, bookmarkOfJson]
    rw [if_pos (Int.ofNat_nonneg i)]
    rw [tagsRoundTrip t]
    simp

theorem bookmarksRoundTrip (bs : List Bookmark) :
    optMapAll bookmarkOfJson (bs.map bookmarkToJson) = some bs := by
  induction bs with
  | nil => rfl
  | cons b rest ih => simp [optMapAll, bookmarkOfJson_toJson, ih]

/-- C9: saving the container and loading it back yields exactly the
same document (no warning, no error), and reading that document back
as a typed container recovers the same bookmark sequence — same
records in the same order — and the same `next_id`. -/
theorem C9_roundtrip (s : Store) :
    load_bookmarks (save_bookmarks (storeToJson s)) = ⟨.ok (storeToJson s), false⟩
    ∧ storeOfJson (storeToJson s) = some s := by
  constructor
  · rfl
  · cases s with
    | mk bs n =>
      simp only [storeToJson, storeOfJson]
      rw [if_pos (Int.ofNat_nonneg n)]
      rw [bookmarksRoundTrip bs]
      simp

/-! ## Claim C7: fetch failures become cached content -/

/-- The failure modes the spec's fetch-failure property quantifies
over, mapped onto the environment: subprocess timeout or exception or
non-zero exit or empty output for the selected browser strategy;
missing optional capability; or a network error / processing
exception on the HTTP path. -/
def subprocFailed (r : SubprocResult) : Prop :=
  match r with
  | .timeout => True
  | .notFound => True
  | .exc _ => True
  | .done rc out _ => rc ≠ 0 ∨ pyStrip out = ""

/-- Failure of the whole strategy `fetch_page_text` selects, per the
claim's enumeration of fetch failures. -/
def fetchFailed (env : FetchEnv) : Prop :=
  if env.caps.hasLinks then subprocFailed env.links
  else if env.caps.hasLynx then subprocFailed (lynxEffective env.lynx1 env.lynx2)
  else if !env.caps.hasRequests then True
  else
    match env.http with
    | .requestError _ => True
    | .otherExc _ => True
    | .response _ _ _ => False

theorem fetch_with_links_ne_empty (r : SubprocResult) (hfail : subprocFailed r) :
    fetch_with_links r ≠ "" := by
  cases r with
  | timeout => decide
  | notFound => decide
  | exc m => exact strNe_empty_append_left "❌ Links error: " m (by decide)
  | done rc out err =>
    have hfail' : rc ≠ 0 ∨ pyStrip out = "" := hfail
    have hcond : ¬(rc = 0 ∧ pyStrip out ≠ "") := by
      rcases hfail' with h | h
      · rintro ⟨h0, _⟩
        exact h h0
      · rintro ⟨_, hs⟩
        exact hs h
    simp only [fetch_with_links]
    rw [if_neg hcond]
    exact strNe_empty_append_left "❌ Links failed: " _ (by decide)

theorem lynxRender_ne_empty (r : SubprocResult) (hfail : subprocFailed r) :
    lynxRender r ≠ "" := by
  cases r with
  | timeout => decide
  | notFound => decide
  | exc m => exact strNe_empty_append_left "❌ Lynx error: " m (by decide)
  | done rc out err =>
    have hfail' : rc ≠ 0 ∨ pyStrip out = "" := hfail
    have hcond : ¬(rc = 0 ∧ pyStrip out ≠ "") := by
      rcases hfail' with h | h
      · rintro ⟨h0, _⟩
        exact h h0
      · rintro ⟨_, hs⟩
        exact hs h
    simp only [lynxRender]
    rw [if_neg hcond]
    exact strNe_empty_append_left "❌ Lynx failed: " _ (by decide)

theorem fetch_failure_ne_empty (env : FetchEnv) (hfail : fetchFailed env) :
    fetch_page_text env ≠ "" := by
  obtain ⟨⟨hl, hy, hr, hh, hb⟩, links, lynx1, lynx2, http, handled⟩ := env
  cases hl
  · cases hy
    · cases hr
      · exact (by decide : noRequestsMsg ≠ "")
      · cases http with
        | requestError m =>
          exact strNe_empty_append_left "❌ Failed to fetch: " m (by decide)
        | otherExc m =>
          exact strNe_empty_append_left "❌ Error processing content: " m (by decide)
        | response ct text cl =>
          exact absurd hfail (by exact fun h => h)
    · exact lynxRender_ne_empty (lynxEffective lynx1 lynx2) hfail
  · exact fetch_with_links_ne_empty links hfail

/-- C7: for every failing fetch attempt (per the spec's enumeration)
the Fetcher returns a non-empty textual error/placeholder message (it
is a total function — no exception propagates), `add_bookmark` writes
exactly that message to the new bookmark's cache entry, marks the
record `has_content = true`, and appends it to the store.  The cache
write itself is taken to succeed (`writeOk = true`); its own I/O
failure is a separate concern outside this claim. -/
theorem C7_fetch_failure (env : FetchEnv) (st : Store) (cache : CacheFS)
    (url description : String) (tags : List String) (created : String)
    (hfail : fetchFailed env) :
    fetch_page_text env ≠ ""
    ∧ (add_bookmark st cache env url description tags created true).added.has_content = true
    ∧ (add_bookmark st cache env url description tags created true).cache.entries
        (add_bookmark st cache env url description tags created true).added.id
      = some (fetch_page_text env)
    ∧ (add_bookmark st cache env url description tags created true).store.bookmarks
      = st.bookmarks ++ [(add_bookmark st cache env url description tags created true).added] := by
  have hne : fetch_page_text env ≠ "" := fetch_failure_ne_empty env hfail
  have hstep : add_bookmark st cache env url description tags created true
      = ⟨⟨st.bookmarks ++ [⟨st.next_id, normalize_url url, description, tags, created,
            pyNetloc (normalize_url url), true⟩], st.next_id + 1⟩,
         cacheWrite cache st.next_id (fetch_page_text env),
         ⟨st.next_id, normalize_url url, description, tags, created,
            pyNetloc (normalize_url url), true⟩⟩ := by
    unfold add_bookmark add_bookmark_core
    simp [hne]
  refine ⟨hne, ?_, ?_, ?_⟩
  · rw [hstep]
  · rw [hstep]
    simp [cacheWrite]
  · rw [hstep]

/-- C7 witness: Links is installed and times out; the timeout message
becomes the cached content of the freshly added bookmark. -/
theorem C7_fetch_failure_witness :
    fetch_page_text ⟨⟨true, false, false, false, false⟩, .timeout, .timeout, .timeout,
        .requestError "", .error ""⟩ ≠ ""
    ∧ (add_bookmark ⟨[], 1⟩ ⟨fun _ => none⟩
        ⟨⟨true, false, false, false, false⟩, .timeout, .timeout, .timeout,
          .requestError "", .error ""⟩ "a.com" "" [] "2024-01-01" true).added.has_content = true
    ∧ (add_bookmark ⟨[], 1⟩ ⟨fun _ => none⟩
        ⟨⟨true, false, false, false, false⟩, .timeout, .timeout, .timeout,
          .requestError "", .error ""⟩ "a.com" "" [] "2024-01-01" true).cache.entries
        ((add_bookmark ⟨[], 1⟩ ⟨fun _ => none⟩
          ⟨⟨true, false, false, false, false⟩, .timeout, .timeout, .timeout,
            .requestError "", .error ""⟩ "a.com" "" [] "2024-01-01" true).added.id)
      = some (fetch_page_text ⟨⟨true, false, false, false, false⟩, .timeout, .timeout, .timeout,
          .requestError "", .error ""⟩)
    ∧ (add_bookmark ⟨[], 1⟩ ⟨fun _ => none⟩
        ⟨⟨true, false, false, false, false⟩, .timeout, .timeout, .timeout,
          .requestError "", .error ""⟩ "a.com" "" [] "2024-01-01" true).store.bookmarks
      = [] ++ [(add_bookmark ⟨[], 1⟩ ⟨fun _ => none⟩
          ⟨⟨true, false, false, false, false⟩, .timeout, .timeout, .timeout,
            .requestError "", .error ""⟩ "a.com" "" [] "2024-01-01" true).added] :=
  C7_fetch_failure ⟨⟨true, false, false, false, false⟩, .timeout, .timeout, .timeout,
      .requestError "", .error ""⟩ ⟨[], 1⟩ ⟨fun _ => none⟩ "a.com" "" [] "2024-01-01"
    (by exact trivial)

/-! ## Claim C6: truncation markers and budgets -/

theorem links_trunc_output (out err : String) (h : 4000 < (pyStrip out).length) :
    fetch_with_links (.done 0 out err)
      = linksHeader ++ (pyTakeStr 4000 (pyStrip out) ++ truncMarker)
    ∧ (fetch_with_links (.done 0 out err)).length
      = linksHeader.length + (4000 + truncMarker.length) := by
  have hne : pyStrip out ≠ "" := strNe_empty_of_length _ (by omega)
  have heq : fetch_with_links (.done 0 out err)
      = linksHeader ++ (pyTakeStr 4000 (pyStrip out) ++ truncMarker) := by
    simp only [fetch_with_links]
    rw [if_pos (⟨trivial, hne⟩ : True ∧ pyStrip out ≠ "")]
    rw [if_pos h]
  refine ⟨heq, ?_⟩
  rw [heq, strLength_append, strLength_append,
    pyTakeStr_length_eq 4000 _ (Nat.le_of_lt h)]

theorem simple_trunc_output (html : String) (h : 3000 < (simpleCleaned html).length) :
    extract_text_simple html
      = simpleHeader ++ (pyTakeStr 3000 (simpleCleaned html) ++ truncMarker)
    ∧ (extract_text_simple html).length
      = simpleHeader.length + (3000 + truncMarker.length) := by
  have heq0 : extract_text_simple html
      = simpleHeader ++ (if (simpleCleaned html).length > 3000
          then pyTakeStr 3000 (simpleCleaned html) ++ truncMarker
          else simpleCleaned html) := rfl
  have heq : extract_text_simple html
      = simpleHeader ++ (pyTakeStr 3000 (simpleCleaned html) ++ truncMarker) := by
    rw [heq0, if_pos h]
  refine ⟨heq, ?_⟩
  rw [heq, strLength_append, strLength_append,
    pyTakeStr_length_eq 3000 _ (Nat.le_of_lt h)]

theorem h2t_trunc_output (raw : String) (h : 4000 < (html2textCleanup raw).length) :
    extract_text_with_html2text (.ok raw)
      = h2tHeader ++ (pyTakeStr 4000 (html2textCleanup raw) ++ truncMarker)
    ∧ (extract_text_with_html2text (.ok raw)).length
      = h2tHeader.length + (4000 + truncMarker.length) := by
  have heq0 : extract_text_with_html2text (.ok raw)
      = h2tHeader ++ (if (html2textCleanup raw).length > 4000
          then pyTakeStr 4000 (html2textCleanup raw) ++ truncMarker
          else html2textCleanup raw) := rfl
  have heq : extract_text_with_html2text (.ok raw)
      = h2tHeader ++ (pyTakeStr 4000 (html2textCleanup raw) ++ truncMarker) := by
    rw [heq0, if_pos h]
  refine ⟨heq, ?_⟩
  rw [heq, strLength_append, strLength_append,
    pyTakeStr_length_eq 4000 _ (Nat.le_of_lt h)]

theorem json_branch_output (text : String) (clen : Nat) :
    fetch_page_text ⟨⟨false, false, true, false, false⟩, .timeout, .timeout, .timeout,
        .response "application/json" text clen, .error ""⟩
      = jsonHeader ++ pyTakeStr 2000 text ++ "..."
    ∧ (fetch_page_text ⟨⟨false, false, true, false, false⟩, .timeout, .timeout, .timeout,
        .response "application/json" text clen, .error ""⟩).length
      ≤ jsonHeader.length + 2000 + 3 := by
  have heq : fetch_page_text ⟨⟨false, false, true, false, false⟩, .timeout, .timeout, .timeout,
      .response "application/json" text clen, .error ""⟩
      = jsonHeader ++ pyTakeStr 2000 text ++ "..." := rfl
  refine ⟨heq, ?_⟩
  rw [heq, strLength_append, strLength_append]
  have h1 := pyTakeStr_length_le 2000 text
  have h2 : ("..." : String).length = 3 := rfl
  omega

theorem text_branch_output (text : String) (clen : Nat) :
    fetch_page_text ⟨⟨false, false, true, false, false⟩, .timeout, .timeout, .timeout,
        .response "text/plain" text clen, .error ""⟩
      = textHeader ++ pyTakeStr 2000 text ++ "..."
    ∧ (fetch_page_text ⟨⟨false, false, true, false, false⟩, .timeout, .timeout, .timeout,
        .response "text/plain" text clen, .error ""⟩).length
      ≤ textHeader.length + 2000 + 3 := by
  have heq : fetch_page_text ⟨⟨false, false, true, false, false⟩, .timeout, .timeout, .timeout,
      .response "text/plain" text clen, .error ""⟩
      = textHeader ++ pyTakeStr 2000 text ++ "..." := rfl
  refine ⟨heq, ?_⟩
  rw [heq, strLength_append, strLength_append]
  have h1 := pyTakeStr_length_le 2000 text
  have h2 : ("..." : String).length = 3 := rfl
  omega

theorem lynxRender_trunc (out err : String) (h : 4000 < (pyStrip out).length) :
    lynxRender (.done 0 out err)
      = lynxHeader ++ (pyTakeStr 4000 (pyStrip out) ++ truncMarker)
    ∧ (lynxRender (.done 0 out err)).length
      = lynxHeader.length + (4000 + truncMarker.length) := by
  have hne : pyStrip out ≠ "" := strNe_empty_of_length _ (by omega)
  have heq : lynxRender (.done 0 out err)
      = lynxHeader ++ (pyTakeStr 4000 (pyStrip out) ++ truncMarker) := by
    simp only [lynxRender]
    rw [if_pos (⟨trivial, hne⟩ : True ∧ pyStrip out ≠ "")]
    rw [if_pos h]
  refine ⟨heq, ?_⟩
  rw [heq, strLength_append, strLength_append,
    pyTakeStr_length_eq 4000 _ (Nat.le_of_lt h)]

theorem lynx_trunc_output (out err : String) (r2 : SubprocResult)
    (h : 4000 < (pyStrip out).length) :
    fetch_with_lynx (.done 0 out err) r2
      = lynxHeader ++ (pyTakeStr 4000 (pyStrip out) ++ truncMarker)
    ∧ (fetch_with_lynx (.done 0 out err) r2).length
      = lynxHeader.length + (4000 + truncMarker.length) := by
  have heff : fetch_with_lynx (.done 0 out err) r2 = lynxRender (.done 0 out err) := rfl
  rw [heff]
  exact lynxRender_trunc out err h

theorem lynx_retry_trunc_output (out1 err1 out err : String)
    (h : 4000 < (pyStrip out).length) :
    fetch_with_lynx (.done 1 out1 err1) (.done 0 out err)
      = lynxHeader ++ (pyTakeStr 4000 (pyStrip out) ++ truncMarker)
    ∧ (fetch_with_lynx (.done 1 out1 err1) (.done 0 out err)).length
      = lynxHeader.length + (4000 + truncMarker.length) := by
  have heff : fetch_with_lynx (.done 1 out1 err1) (.done 0 out err)
      = lynxRender (.done 0 out err) := rfl
  rw [heff]
  exact lynxRender_trunc out err h

/-- C6 (amended): when the (browser-rendered or cleaned) content
exceeds a strategy's budget (4000 for the Links and Lynx browser
dumps and for html2text, 3000 for the simple stripper), the truncated
content inside the output ends with the truncation marker and the
output's total length equals the strategy's fixed renderer-tag length
plus budget plus marker length (the claim's bound of budget + marker
alone omits the tag the code prepends); for Lynx this holds both when
the first run succeeds and when the retry succeeds after a non-zero
first exit; the JSON and plain-text branches slice to 2000 characters
and append `"..."` unconditionally, bounded by label
length + 2000 + 3. -/
theorem C6_truncation_amended :
    (∀ out err : String, 4000 < (pyStrip out).length →
      fetch_with_links (.done 0 out err)
        = linksHeader ++ (pyTakeStr 4000 (pyStrip out) ++ truncMarker)
      ∧ (fetch_with_links (.done 0 out err)).length
        = linksHeader.length + (4000 + truncMarker.length))
    ∧ (∀ (out err : String) (r2 : SubprocResult), 4000 < (pyStrip out).length →
      fetch_with_lynx (.done 0 out err) r2
        = lynxHeader ++ (pyTakeStr 4000 (pyStrip out) ++ truncMarker)
      ∧ (fetch_with_lynx (.done 0 out err) r2).length
        = lynxHeader.length + (4000 + truncMarker.length))
    ∧ (∀ out1 err1 out err : String, 4000 < (pyStrip out).length →
      fetch_with_lynx (.done 1 out1 err1) (.done 0 out err)
        = lynxHeader ++ (pyTakeStr 4000 (pyStrip out) ++ truncMarker)
      ∧ (fetch_with_lynx (.done 1 out1 err1) (.done 0 out err)).length
        = lynxHeader.length + (4000 + truncMarker.length))
    ∧ (∀ html : String, 3000 < (simpleCleaned html).length →
      extract_text_simple html
        = simpleHeader ++ (pyTakeStr 3000 (simpleCleaned html) ++ truncMarker)
      ∧ (extract_text_simple html).length
        = simpleHeader.length + (3000 + truncMarker.length))
    ∧ (∀ raw : String, 4000 < (html2textCleanup raw).length →
      extract_text_with_html2text (.ok raw)
        = h2tHeader ++ (pyTakeStr 4000 (html2textCleanup raw) ++ truncMarker)
      ∧ (extract_text_with_html2text (.ok raw)).length
        = h2tHeader.length + (4000 + truncMarker.length))
    ∧ (∀ (text : String) (clen : Nat),
      fetch_page_text ⟨⟨false, false, true, false, false⟩, .timeout, .timeout, .timeout,
          .response "application/json" text clen, .error ""⟩
        = jsonHeader ++ pyTakeStr 2000 text ++ "..."
      ∧ (fetch_page_text ⟨⟨false, false, true, false, false⟩, .timeout, .timeout, .timeout,
          .response "application/json" text clen, .error ""⟩).length
        ≤ jsonHeader.length + 2000 + 3)
    ∧ (∀ (text : String) (clen : Nat),
      fetch_page_text ⟨⟨false, false, true, false, false⟩, .timeout, .timeout, .timeout,
          .response "text/plain" text clen, .error ""⟩
        = textHeader ++ pyTakeStr 2000 text ++ "..."
      ∧ (fetch_page_text ⟨⟨false, false, true, false, false⟩, .timeout, .timeout, .timeout,
          .response "text/plain" text clen, .error ""⟩).length
        ≤ textHeader.length + 2000 + 3) :=
  ⟨links_trunc_output, lynx_trunc_output, lynx_retry_trunc_output,
   simple_trunc_output, h2t_trunc_output, json_branch_output, text_branch_output⟩

/-- A run of `n` letters `x` — a browser rendition with no markup and
no whitespace. -/
def xRun (n : Nat) : String := String.mk (List.replicate n 'x')

theorem xRun_length (n : Nat) : (xRun n).length = n := by
  unfold xRun
  rw [strLength_mk, List.length_replicate]

theorem dropWhile_replicate_x (p : Char → Bool) (n : Nat) (h : p 'x' = false) :
    List.dropWhile p (List.replicate n 'x') = List.replicate n 'x' := by
  cases n with
  | zero => rfl
  | succ k => simp [List.replicate_succ, List.dropWhile_cons, h]

theorem pyStrip_xRun (n : Nat) : pyStrip (xRun n) = xRun n := by
  unfold pyStrip xRun pyStripList
  rw [show (String.mk (List.replicate n 'x')).data = List.replicate n 'x' from rfl]
  rw [dropWhile_replicate_x isPySpace n (by decide)]
  rw [List.reverse_replicate]
  rw [dropWhile_replicate_x isPySpace n (by decide)]
  rw [List.reverse_replicate]

theorem pyRstrip_xRun (n : Nat) : pyRstrip (xRun n) = xRun n := by
  unfold pyRstrip xRun
  rw [show (String.mk (List.replicate n 'x')).data = List.replicate n 'x' from rfl]
  rw [List.reverse_replicate]
  rw [dropWhile_replicate_x isPySpace n (by decide)]
  rw [List.reverse_replicate]

theorem stripScripts_replicate_x (n : Nat) :
    stripScripts (List.replicate n 'x') = List.replicate n 'x' := by
  induction n with
  | zero =>
    rw [List.replicate_zero]
    rw [stripScripts]
  | succ k ih =>
    rw [List.replicate_succ]
    rw [stripScripts]
    rw [if_neg (show ¬('x' = '<') by decide), ih]

theorem stripTags_replicate_x (n : Nat) :
    stripTags (List.replicate n 'x') = List.replicate n 'x' := by
  induction n with
  | zero =>
    rw [List.replicate_zero]
    rw [stripTags]
  | succ k ih =>
    rw [List.replicate_succ]
    rw [stripTags]
    rw [if_neg (show ¬('x' = '<') by decide), ih]

theorem collapseWs_replicate_x (n : Nat) :
    collapseWs (List.replicate n 'x') = List.replicate n 'x' := by
  induction n with
  | zero =>
    rw [List.replicate_zero]
    rw [collapseWs]
  | succ k ih =>
    rw [List.replicate_succ]
    rw [collapseWs]
    rw [if_neg (show ¬(isPySpace 'x' = true) by decide), ih]

theorem simpleCleaned_xRun (n : Nat) : simpleCleaned (xRun n) = xRun n := by
  unfold simpleCleaned
  rw [show (xRun n).data = List.replicate n 'x' from rfl]
  rw [stripScripts_replicate_x, stripTags_replicate_x, collapseWs_replicate_x]
  exact pyStrip_xRun n

theorem splitOnChar_replicate_x (n : Nat) :
    splitOnChar '\n' (List.replicate n 'x') = [List.replicate n 'x'] := by
  induction n with
  | zero => rfl
  | succ k ih =>
    rw [List.replicate_succ]
    rw [splitOnChar]
    rw [if_neg (show ¬('x' = '\n') by decide), ih]

theorem html2textCleanup_xRun (n : Nat) (hn : 0 < n) :
    html2textCleanup (xRun n) = xRun n := by
  have hne : pyStrip (xRun n) ≠ "" := by
    rw [pyStrip_xRun]
    apply strNe_empty_of_length
    rw [xRun_length]
    omega
  unfold html2textCleanup
  rw [show (xRun n).data = List.replicate n 'x' from rfl]
  rw [splitOnChar_replicate_x]
  rw [show (List.map String.mk [List.replicate n 'x']) = [xRun n] from rfl]
  show pyStrip (joinWith "\n" (List.foldl cleanupStep ([], 0) [xRun n]).1) = xRun n
  have hfold : List.foldl cleanupStep ([], 0) [xRun n] = ([pyRstrip (xRun n)], 0) := by
    simp [List.foldl, cleanupStep, hne]
  rw [hfold, pyRstrip_xRun]
  rw [show joinWith "\n" [xRun n] = xRun n from rfl]
  exact pyStrip_xRun n

/-- C6 counterexample: a Links dump of 4001 non-whitespace characters
is truncated to 4000 and gets the marker, but the renderer tag
`"🔗 Links Browser View:\n\n"` is prepended afterwards, so the total
output length strictly exceeds budget + marker length, refuting the
claim's bound. -/
theorem C6_counterexample :
    ¬ ((fetch_with_links (.done 0 (xRun 4001) "")).length ≤ 4000 + truncMarker.length) := by
  have h : 4000 < (pyStrip (xRun 4001)).length := by
    rw [pyStrip_xRun, xRun_length]
    omega
  have hlen := (links_trunc_output (xRun 4001) "" h).2
  rw [hlen]
  have h1 : 0 < linksHeader.length := by decide
  omega

/-- C6 witness: the amended truncation facts applied at concrete
over-budget inputs for each embedded strategy, including the Lynx
direct-success and success-on-retry paths. -/
theorem C6_truncation_witness :
    (fetch_with_links (.done 0 (xRun 4001) "")
        = linksHeader ++ (pyTakeStr 4000 (pyStrip (xRun 4001)) ++ truncMarker)
      ∧ (fetch_with_links (.done 0 (xRun 4001) "")).length
        = linksHeader.length + (4000 + truncMarker.length))
    ∧ (fetch_with_lynx (.done 0 (xRun 4001) "") .timeout
        = lynxHeader ++ (pyTakeStr 4000 (pyStrip (xRun 4001)) ++ truncMarker)
      ∧ (fetch_with_lynx (.done 0 (xRun 4001) "") .timeout).length
        = lynxHeader.length + (4000 + truncMarker.length))
    ∧ (fetch_with_lynx (.done 1 "" "er") (.done 0 (xRun 4001) "")
        = lynxHeader ++ (pyTakeStr 4000 (pyStrip (xRun 4001)) ++ truncMarker)
      ∧ (fetch_with_lynx (.done 1 "" "er") (.done 0 (xRun 4001) "")).length
        = lynxHeader.length + (4000 + truncMarker.length))
    ∧ (extract_text_simple (xRun 3001)
        = simpleHeader ++ (pyTakeStr 3000 (simpleCleaned (xRun 3001)) ++ truncMarker)
      ∧ (extract_text_simple (xRun 3001)).length
        = simpleHeader.length + (3000 + truncMarker.length))
    ∧ (extract_text_with_html2text (.ok (xRun 4001))
        = h2tHeader ++ (pyTakeStr 4000 (html2textCleanup (xRun 4001)) ++ truncMarker)
      ∧ (extract_text_with_html2text (.ok (xRun 4001))).length
        = h2tHeader.length + (4000 + truncMarker.length))
    ∧ (fetch_page_text ⟨⟨false, false, true, false, false⟩, .timeout, .timeout, .timeout,
          .response "application/json" (xRun 2001) 2001, .error ""⟩
        = jsonHeader ++ pyTakeStr 2000 (xRun 2001) ++ "..."
      ∧ (fetch_page_text ⟨⟨false, false, true, false, false⟩, .timeout, .timeout, .timeout,
          .response "application/json" (xRun 2001) 2001, .error ""⟩).length
        ≤ jsonHeader.length + 2000 + 3)
    ∧ (fetch_page_text ⟨⟨false, false, true, false, false⟩, .timeout, .timeout, .timeout,
          .response "text/plain" (xRun 2001) 2001, .error ""⟩
        = textHeader ++ pyTakeStr 2000 (xRun 2001) ++ "..."
      ∧ (fetch_page_text ⟨⟨false, false, true, false, false⟩, .timeout, .timeout, .timeout,
          .response "text/plain" (xRun 2001) 2001, .error ""⟩).length
        ≤ textHeader.length + 2000 + 3) :=
  ⟨C6_truncation_amended.1 (xRun 4001) ""
      (by rw [pyStrip_xRun, xRun_length]; omega),
   C6_truncation_amended.2.1 (xRun 4001) "" .timeout
      (by rw [pyStrip_xRun, xRun_length]; omega),
   C6_truncation_amended.2.2.1 "" "er" (xRun 4001) ""
      (by rw [pyStrip_xRun, xRun_length]; omega),
   C6_truncation_amended.2.2.2.1 (xRun 3001)
      (by rw [simpleCleaned_xRun, xRun_length]; omega),
   C6_truncation_amended.2.2.2.2.1 (xRun 4001)
      (by rw [html2textCleanup_xRun 4001 (by omega), xRun_length]; omega),
   C6_truncation_amended.2.2.2.2.2.1 (xRun 2001) 2001,
   C6_truncation_amended.2.2.2.2.2.2 (xRun 2001) 2001⟩
